import Mathlib

/-!
Verification of the UHPC property-prediction engine.

The development shallowly embeds, over the real numbers, the two prediction
variants of the UHPC research platform:

* `predict_concrete_properties_cached` — the binder-factor model of
  `UHPC_Presentation_Demo.py` (lines 105-170), together with the
  age-development / literature-validation sequences built from it in
  `literature_validation_demo` (lines 714-735);
* `UHPCToHTMLConverter.predict_concrete_properties` — the linear-plus-log
  model of `streamlit_to_html_converter.py` (lines 21-53).

Python floats are modelled as exact reals; `numpy.log`, `numpy.sqrt`,
`numpy.exp` and `**` become `Real.log`, `Real.sqrt`, `Real.exp` and `rpow`.
-/

namespace UHPC

/-- Output record of the primary predictor: the five derived properties
returned as a dict by `predict_concrete_properties_cached`. -/
structure PropertyEstimate where
  compressive_strength : ℝ
  tensile_strength : ℝ
  elastic_modulus : ℝ
  upv : ℝ
  cost : ℝ

/-- Range clipping `max(lower, min(upper, x))`, the shape used by every
clamping line of the primary variant. -/
def clamp (x lo hi : ℝ) : ℝ := max lo (min hi x)

/-- Line 120: `total_binder = cement + slag + fly_ash + silica_fume`. -/
def total_binder (cement slag fly_ash silica_fume : ℝ) : ℝ :=
  cement + slag + fly_ash + silica_fume

/-- Line 123: `age_factor = np.log(age + 1) / np.log(29) if age > 0 else 1`. -/
noncomputable def age_factor (age : ℝ) : ℝ :=
  if 0 < age then Real.log (age + 1) / Real.log 29 else 1

/-- Line 126: `slag_factor = 1 + 0.3 * (slag / total_binder) if total_binder > 0 else 1`. -/
noncomputable def slag_factor (slag tb : ℝ) : ℝ :=
  if 0 < tb then 1 + 0.3 * (slag / tb) else 1

/-- Line 127: `fly_ash_factor = 1 + 0.2 * (fly_ash / total_binder) if total_binder > 0 else 1`. -/
noncomputable def fly_ash_factor (fly_ash tb : ℝ) : ℝ :=
  if 0 < tb then 1 + 0.2 * (fly_ash / tb) else 1

/-- Line 128: `silica_fume_factor = 1 + 0.4 * (silica_fume / total_binder) if total_binder > 0 else 1`. -/
noncomputable def silica_fume_factor (silica_fume tb : ℝ) : ℝ :=
  if 0 < tb then 1 + 0.4 * (silica_fume / tb) else 1

/-- Line 131: `base_strength = 40 * (total_binder / water) ** 0.7`. -/
noncomputable def base_strength (tb water : ℝ) : ℝ :=
  40 * (tb / water) ^ (0.7 : ℝ)

/-- Lines 130-133: the compressive strength before the `max(10, min(120, _))`
clamp of line 134. -/
noncomputable def compressive_pre
    (cement water slag fly_ash silica_fume superplast age : ℝ) : ℝ :=
  base_strength (total_binder cement slag fly_ash silica_fume) water *
    age_factor age *
    slag_factor slag (total_binder cement slag fly_ash silica_fume) *
    fly_ash_factor fly_ash (total_binder cement slag fly_ash silica_fume) *
    silica_fume_factor silica_fume (total_binder cement slag fly_ash silica_fume) *
    (1 + superplast / 100)

/-- Lines 105-170 of `UHPC_Presentation_Demo.py`: the primary (variant 4.1)
prediction function. The degenerate guard of lines 110-117 returns the
all-zero estimate; otherwise the five properties are computed in order,
with clamping exactly where the source clamps. -/
noncomputable def predict_concrete_properties_cached
    (cement water slag fly_ash silica_fume coarse_agg fine_agg superplast age : ℝ) :
    PropertyEstimate :=
  if water ≤ 0 ∨ cement ≤ 0 then
    { compressive_strength := 0, tensile_strength := 0, elastic_modulus := 0,
      upv := 0, cost := 0 }
  else
    let compressive_strength :=
      clamp (compressive_pre cement water slag fly_ash silica_fume superplast age) 10 120
    let tensile_strength :=
      clamp (compressive_strength * (0.08 + 0.07 * silica_fume / 100)) 1 15
    let density_factor := (coarse_agg + fine_agg) / 1800
    let elastic_modulus :=
      clamp (4700 * Real.sqrt compressive_strength * density_factor) 15000 50000
    let upv :=
      clamp (3800 + 15 * Real.sqrt compressive_strength + density_factor * 200) 3000 5000
    let cost := cement * 0.12 + slag * 0.08 + fly_ash * 0.06 + silica_fume * 0.8 +
      coarse_agg * 0.02 + fine_agg * 0.015 + superplast * 2.0 + water * 0.001
    { compressive_strength := compressive_strength, tensile_strength := tensile_strength,
      elastic_modulus := elastic_modulus, upv := upv, cost := cost }

/-- Line 714: `ages = np.arange(1, 91)`, the ages 1,…,90 sampled by the
literature-validation helper. -/
def ages : List ℝ := (List.range 90).map (fun (i : ℕ) => ((i : ℝ) + 1))

/-- Lines 717-723: the model's compressive strength at each sampled age for
the fixed mix. -/
noncomputable def our_predictions
    (cement water slag fly_ash silica_fume coarse_agg fine_agg superplast : ℝ) : List ℝ :=
  ages.map (fun age =>
    (predict_concrete_properties_cached cement water slag fly_ash silica_fume
      coarse_agg fine_agg superplast age).compressive_strength)

/-- Lines 726-729: the 28-day strength used for normalization. -/
noncomputable def strength_28
    (cement water slag fly_ash silica_fume coarse_agg fine_agg superplast : ℝ) : ℝ :=
  (predict_concrete_properties_cached cement water slag fly_ash silica_fume
    coarse_agg fine_agg superplast 28).compressive_strength

/-- Line 731: `our_percentages = [(s/strength_28)*100 for s in our_predictions]`. -/
noncomputable def our_percentages
    (cement water slag fly_ash silica_fume coarse_agg fine_agg superplast : ℝ) : List ℝ :=
  (our_predictions cement water slag fly_ash silica_fume coarse_agg fine_agg superplast).map
    (fun s => s / strength_28 cement water slag fly_ash silica_fume coarse_agg fine_agg superplast * 100)

/-- Line 734: `aci_percentages = [(age / (4.0 + 0.85 * age)) * 100 for age in ages]`. -/
noncomputable def aci_percentages : List ℝ :=
  ages.map (fun age => age / (4.0 + 0.85 * age) * 100)

/-- Line 735, the per-age Eurocode 2 reference value:
`np.exp(0.2 * (1 - np.sqrt(28/age))) * 100 if age >= 3 else 50`. -/
noncomputable def eurocode_percent (age : ℝ) : ℝ :=
  if 3 ≤ age then Real.exp (0.2 * (1 - Real.sqrt (28 / age))) * 100 else 50

/-- Line 735: the Eurocode 2 reference sequence over the sampled ages. -/
noncomputable def eurocode_percentages : List ℝ :=
  ages.map eurocode_percent

/-- Output record of the converter variant: the five values returned (after
`round(_, 2)`) by `UHPCToHTMLConverter.predict_concrete_properties`. -/
structure ConverterEstimate where
  comp_strength : ℝ
  tensile_strength : ℝ
  elastic_modulus : ℝ
  upv : ℝ
  cost : ℝ

/-- Python `round(x, 2)` in exact real arithmetic: round `100 * x` to the
nearest integer and divide by 100. (Mathlib's `round` sends ties upward
while Python sends the nearest binary float's ties to even; no input used
below sits on a tie.) -/
noncomputable def round2 (x : ℝ) : ℝ := (round (x * 100) : ℤ) / 100

namespace UHPCToHTMLConverter

/-- Lines 21-53 of `streamlit_to_html_converter.py`: the alternate
(variant 4.3) prediction function. Every returned value is rounded to two
decimal places; no clamping is applied anywhere. -/
noncomputable def predict_concrete_properties
    (cement silica_fume super_plasticizer water_reducer steel_fibers aggregate water age : ℝ) :
    ConverterEstimate :=
  let comp_strength := 0.45 * cement + 0.8 * silica_fume + 15 * super_plasticizer +
    8 * water_reducer + 0.3 * steel_fibers - 0.2 * water + 5 * Real.log (age + 1) + 25
  let tensile_strength := 0.08 * comp_strength + 0.02 * steel_fibers + 2
  let elastic_modulus := 25 + 0.15 * comp_strength + 0.001 * steel_fibers
  let upv := 3.8 + 0.01 * comp_strength + 0.0001 * steel_fibers
  let cost := cement * 0.12 + silica_fume * 0.8 + super_plasticizer * 2.5 +
    water_reducer * 1.8 + steel_fibers * 1.2 + aggregate * 0.05 + 50
  { comp_strength := round2 comp_strength, tensile_strength := round2 tensile_strength,
    elastic_modulus := round2 elastic_modulus, upv := round2 upv, cost := round2 cost }

end UHPCToHTMLConverter

end UHPC

namespace UHPC

lemma le_clamp (x lo hi : ℝ) : lo ≤ clamp x lo hi := le_max_left _ _

lemma clamp_le (x : ℝ) {lo hi : ℝ} (h : lo ≤ hi) : clamp x lo hi ≤ hi :=
  max_le h (min_le_left _ _)

lemma clamp_eq_of_mem {x lo hi : ℝ} (h1 : lo ≤ x) (h2 : x ≤ hi) : clamp x lo hi = x := by
  unfold clamp
  rw [min_eq_right h2, max_eq_right h1]

lemma not_degenerate {water cement : ℝ} (hw : 0 < water) (hc : 0 < cement) :
    ¬(water ≤ 0 ∨ cement ≤ 0) := by
  push_neg
  exact ⟨hw, hc⟩

lemma compressive_strength_eq
    (cement water slag fly_ash silica_fume coarse_agg fine_agg superplast age : ℝ)
    (hw : 0 < water) (hc : 0 < cement) :
    (predict_concrete_properties_cached cement water slag fly_ash silica_fume
      coarse_agg fine_agg superplast age).compressive_strength =
    clamp (compressive_pre cement water slag fly_ash silica_fume superplast age) 10 120 := by
  unfold predict_concrete_properties_cached
  rw [if_neg (not_degenerate hw hc)]

lemma tensile_strength_eq
    (cement water slag fly_ash silica_fume coarse_agg fine_agg superplast age : ℝ)
    (hw : 0 < water) (hc : 0 < cement) :
    (predict_concrete_properties_cached cement water slag fly_ash silica_fume
      coarse_agg fine_agg superplast age).tensile_strength =
    clamp ((predict_concrete_properties_cached cement water slag fly_ash silica_fume
      coarse_agg fine_agg superplast age).compressive_strength *
      (0.08 + 0.07 * silica_fume / 100)) 1 15 := by
  unfold predict_concrete_properties_cached
  rw [if_neg (not_degenerate hw hc)]

lemma elastic_modulus_eq
    (cement water slag fly_ash silica_fume coarse_agg fine_agg superplast age : ℝ)
    (hw : 0 < water) (hc : 0 < cement) :
    (predict_concrete_properties_cached cement water slag fly_ash silica_fume
      coarse_agg fine_agg superplast age).elastic_modulus =
    clamp (4700 * Real.sqrt ((predict_concrete_properties_cached cement water slag fly_ash
      silica_fume coarse_agg fine_agg superplast age).compressive_strength) *
      ((coarse_agg + fine_agg) / 1800)) 15000 50000 := by
  unfold predict_concrete_properties_cached
  rw [if_neg (not_degenerate hw hc)]

lemma upv_eq
    (cement water slag fly_ash silica_fume coarse_agg fine_agg superplast age : ℝ)
    (hw : 0 < water) (hc : 0 < cement) :
    (predict_concrete_properties_cached cement water slag fly_ash silica_fume
      coarse_agg fine_agg superplast age).upv =
    clamp (3800 + 15 * Real.sqrt ((predict_concrete_properties_cached cement water slag fly_ash
      silica_fume coarse_agg fine_agg superplast age).compressive_strength) +
      ((coarse_agg + fine_agg) / 1800) * 200) 3000 5000 := by
  unfold predict_concrete_properties_cached
  rw [if_neg (not_degenerate hw hc)]

/-- C1: for every input to the primary (4.1) prediction function with
water > 0 and cement > 0 and all other concentrations ≥ 0, the returned
estimate satisfies compressiveStrength ∈ [10, 120], tensileStrength ∈ [1, 15],
elasticModulus ∈ [15000, 50000], and upv ∈ [3000, 5000]. -/
theorem predict_output_ranges
    (cement water slag fly_ash silica_fume coarse_agg fine_agg superplast age : ℝ)
    (hw : 0 < water) (hc : 0 < cement) (hs : 0 ≤ slag) (hf : 0 ≤ fly_ash)
    (hsf : 0 ≤ silica_fume) (hca : 0 ≤ coarse_agg) (hfa : 0 ≤ fine_agg)
    (hsp : 0 ≤ superplast) :
    10 ≤ (predict_concrete_properties_cached cement water slag fly_ash silica_fume
        coarse_agg fine_agg superplast age).compressive_strength ∧
    (predict_concrete_properties_cached cement water slag fly_ash silica_fume
        coarse_agg fine_agg superplast age).compressive_strength ≤ 120 ∧
    1 ≤ (predict_concrete_properties_cached cement water slag fly_ash silica_fume
        coarse_agg fine_agg superplast age).tensile_strength ∧
    (predict_concrete_properties_cached cement water slag fly_ash silica_fume
        coarse_agg fine_agg superplast age).tensile_strength ≤ 15 ∧
    15000 ≤ (predict_concrete_properties_cached cement water slag fly_ash silica_fume
        coarse_agg fine_agg superplast age).elastic_modulus ∧
    (predict_concrete_properties_cached cement water slag fly_ash silica_fume
        coarse_agg fine_agg superplast age).elastic_modulus ≤ 50000 ∧
    3000 ≤ (predict_concrete_properties_cached cement water slag fly_ash silica_fume
        coarse_agg fine_agg superplast age).upv ∧
    (predict_concrete_properties_cached cement water slag fly_ash silica_fume
        coarse_agg fine_agg superplast age).upv ≤ 5000 := by
  rw [compressive_strength_eq cement water slag fly_ash silica_fume coarse_agg fine_agg
      superplast age hw hc,
    tensile_strength_eq cement water slag fly_ash silica_fume coarse_agg fine_agg
      superplast age hw hc,
    elastic_modulus_eq cement water slag fly_ash silica_fume coarse_agg fine_agg
      superplast age hw hc,
    upv_eq cement water slag fly_ash silica_fume coarse_agg fine_agg superplast age hw hc]
  refine ⟨le_clamp _ _ _, clamp_le _ (by norm_num), le_clamp _ _ _, clamp_le _ (by norm_num),
    le_clamp _ _ _, clamp_le _ (by norm_num), le_clamp _ _ _, clamp_le _ (by norm_num)⟩

/-- Witness for C1 at the Standard UHPC reference mix. -/
theorem predict_output_ranges_witness :
    10 ≤ (predict_concrete_properties_cached 400 160 0 0 40 1000 750 12 28).compressive_strength ∧
    (predict_concrete_properties_cached 400 160 0 0 40 1000 750 12 28).compressive_strength ≤ 120 ∧
    1 ≤ (predict_concrete_properties_cached 400 160 0 0 40 1000 750 12 28).tensile_strength ∧
    (predict_concrete_properties_cached 400 160 0 0 40 1000 750 12 28).tensile_strength ≤ 15 ∧
    15000 ≤ (predict_concrete_properties_cached 400 160 0 0 40 1000 750 12 28).elastic_modulus ∧
    (predict_concrete_properties_cached 400 160 0 0 40 1000 750 12 28).elastic_modulus ≤ 50000 ∧
    3000 ≤ (predict_concrete_properties_cached 400 160 0 0 40 1000 750 12 28).upv ∧
    (predict_concrete_properties_cached 400 160 0 0 40 1000 750 12 28).upv ≤ 5000 :=
  predict_output_ranges 400 160 0 0 40 1000 750 12 28 (by norm_num) (by norm_num)
    (by norm_num) (by norm_num) (by norm_num) (by norm_num) (by norm_num) (by norm_num)

/-- C2: for every input to the primary (4.1) prediction function with
water ≤ 0 or cement ≤ 0, the function returns an estimate whose five fields
are all exactly zero. -/
theorem predict_degenerate_zero
    (cement water slag fly_ash silica_fume coarse_agg fine_agg superplast age : ℝ)
    (h : water ≤ 0 ∨ cement ≤ 0) :
    predict_concrete_properties_cached cement water slag fly_ash silica_fume
      coarse_agg fine_agg superplast age =
    { compressive_strength := 0, tensile_strength := 0, elastic_modulus := 0,
      upv := 0, cost := 0 } := by
  unfold predict_concrete_properties_cached
  rw [if_pos h]

/-- Witness for C2 at cement = 0, water = 160 (first degenerate case of the
spec) applied through the theorem. -/
theorem predict_degenerate_zero_witness :
    predict_concrete_properties_cached 0 160 0 0 40 1000 750 12 28 =
    { compressive_strength := 0, tensile_strength := 0, elastic_modulus := 0,
      upv := 0, cost := 0 } :=
  predict_degenerate_zero 0 160 0 0 40 1000 750 12 28 (Or.inr le_rfl)

/-- C3: in the primary (4.1) variant, for every non-degenerate input, the
tensile strength equals `clamp(compressiveStrength * (0.08 + 0.07 * silicaFume / 100), 1, 15)`
with the raw silica-fume concentration divided by 100 (not the ratio
silicaFume / totalBinder used by the binder-interaction factors). -/
theorem tensile_uses_raw_silica_fume
    (cement water slag fly_ash silica_fume coarse_agg fine_agg superplast age : ℝ)
    (hw : 0 < water) (hc : 0 < cement) :
    (predict_concrete_properties_cached cement water slag fly_ash silica_fume
      coarse_agg fine_agg superplast age).tensile_strength =
    clamp ((predict_concrete_properties_cached cement water slag fly_ash silica_fume
      coarse_agg fine_agg superplast age).compressive_strength *
      (0.08 + 0.07 * silica_fume / 100)) 1 15 :=
  tensile_strength_eq cement water slag fly_ash silica_fume coarse_agg fine_agg
    superplast age hw hc

/-- Witness for C3 at the Standard UHPC reference mix. -/
theorem tensile_uses_raw_silica_fume_witness :
    (predict_concrete_properties_cached 400 160 0 0 40 1000 750 12 28).tensile_strength =
    clamp ((predict_concrete_properties_cached 400 160 0 0 40 1000 750 12 28).compressive_strength *
      (0.08 + 0.07 * 40 / 100)) 1 15 :=
  tensile_uses_raw_silica_fume 400 160 0 0 40 1000 750 12 28 (by norm_num) (by norm_num)

lemma log29_pos : 0 < Real.log 29 := Real.log_pos (by norm_num)

lemma age_factor_28 : age_factor 28 = 1 := by
  unfold age_factor
  rw [if_pos (by norm_num : (0:ℝ) < 28), show (28:ℝ) + 1 = 29 by norm_num,
    div_self (ne_of_gt log29_pos)]

lemma age_factor_nonpos {age : ℝ} (ha : age ≤ 0) : age_factor age = 1 := by
  unfold age_factor
  rw [if_neg (not_lt.mpr ha)]

/-- C4: in the primary (4.1) variant, the age factor at age 28 equals exactly 1,
so the pre-clamp compressive strength at age 28 equals
baseStrength * slagFactor * flyAshFactor * silicaFumeFactor * (1 + superplasticizer / 100). -/
theorem age_anchor_28
    (cement water slag fly_ash silica_fume superplast : ℝ)
    (hw : 0 < water) (hc : 0 < cement) :
    age_factor 28 = 1 ∧
    compressive_pre cement water slag fly_ash silica_fume superplast 28 =
      base_strength (total_binder cement slag fly_ash silica_fume) water *
      slag_factor slag (total_binder cement slag fly_ash silica_fume) *
      fly_ash_factor fly_ash (total_binder cement slag fly_ash silica_fume) *
      silica_fume_factor silica_fume (total_binder cement slag fly_ash silica_fume) *
      (1 + superplast / 100) := by
  refine ⟨age_factor_28, ?_⟩
  unfold compressive_pre
  rw [age_factor_28]
  ring

/-- Witness for C4 at the Standard UHPC reference mix. -/
theorem age_anchor_28_witness :
    age_factor 28 = 1 ∧
    compressive_pre 400 160 0 0 40 12 28 =
      base_strength (total_binder 400 0 0 40) 160 *
      slag_factor 0 (total_binder 400 0 0 40) *
      fly_ash_factor 0 (total_binder 400 0 0 40) *
      silica_fume_factor 40 (total_binder 400 0 0 40) *
      (1 + 12 / 100) :=
  age_anchor_28 400 160 0 0 40 12 (by norm_num) (by norm_num)

lemma total_binder_pos {cement slag fly_ash silica_fume : ℝ} (hc : 0 < cement)
    (hs : 0 ≤ slag) (hf : 0 ≤ fly_ash) (hsf : 0 ≤ silica_fume) :
    0 < total_binder cement slag fly_ash silica_fume := by
  unfold total_binder
  linarith

lemma base_strength_pos {tb water : ℝ} (htb : 0 < tb) (hw : 0 < water) :
    0 < base_strength tb water := by
  unfold base_strength
  have h : 0 < tb / water := div_pos htb hw
  have := Real.rpow_pos_of_pos h (0.7 : ℝ)
  linarith

lemma slag_factor_pos {slag tb : ℝ} (hs : 0 ≤ slag) (htb : 0 < tb) :
    0 < slag_factor slag tb := by
  unfold slag_factor
  rw [if_pos htb]
  have : 0 ≤ slag / tb := div_nonneg hs htb.le
  linarith

lemma fly_ash_factor_pos {fly_ash tb : ℝ} (hf : 0 ≤ fly_ash) (htb : 0 < tb) :
    0 < fly_ash_factor fly_ash tb := by
  unfold fly_ash_factor
  rw [if_pos htb]
  have : 0 ≤ fly_ash / tb := div_nonneg hf htb.le
  linarith

lemma silica_fume_factor_pos {silica_fume tb : ℝ} (hsf : 0 ≤ silica_fume) (htb : 0 < tb) :
    0 < silica_fume_factor silica_fume tb := by
  unfold silica_fume_factor
  rw [if_pos htb]
  have : 0 ≤ silica_fume / tb := div_nonneg hsf htb.le
  linarith

/-- C5: in the primary (4.1) variant, for every fixed non-degenerate mix and
every pair of ages a1 < a2 with 1 ≤ a1 and a2 ≤ 28, the pre-clamp
compressive strength at a2 is strictly greater than at a1. -/
theorem compressive_pre_strict_mono_age
    (cement water slag fly_ash silica_fume superplast a1 a2 : ℝ)
    (hw : 0 < water) (hc : 0 < cement) (hs : 0 ≤ slag) (hf : 0 ≤ fly_ash)
    (hsf : 0 ≤ silica_fume) (hsp : 0 ≤ superplast)
    (h1 : 1 ≤ a1) (h12 : a1 < a2) (h2 : a2 ≤ 28) :
    compressive_pre cement water slag fly_ash silica_fume superplast a1 <
    compressive_pre cement water slag fly_ash silica_fume superplast a2 := by
  have htb := total_binder_pos hc hs hf hsf
  have hbase := base_strength_pos htb hw
  have hslag := slag_factor_pos hs htb
  have hfly := fly_ash_factor_pos hf htb
  have hsil := silica_fume_factor_pos hsf htb
  have hspp : 0 < 1 + superplast / 100 := by
    have : 0 ≤ superplast / 100 := by positivity
    linarith
  have haf : age_factor a1 < age_factor a2 := by
    unfold age_factor
    rw [if_pos (by linarith : (0:ℝ) < a1), if_pos (by linarith : (0:ℝ) < a2)]
    exact div_lt_div_of_pos_right
      (Real.log_lt_log (by linarith) (by linarith)) log29_pos
  have hK : 0 < base_strength (total_binder cement slag fly_ash silica_fume) water *
      slag_factor slag (total_binder cement slag fly_ash silica_fume) *
      fly_ash_factor fly_ash (total_binder cement slag fly_ash silica_fume) *
      silica_fume_factor silica_fume (total_binder cement slag fly_ash silica_fume) *
      (1 + superplast / 100) :=
    mul_pos (mul_pos (mul_pos (mul_pos hbase hslag) hfly) hsil) hspp
  have hmul := mul_lt_mul_of_pos_right haf hK
  unfold compressive_pre
  nlinarith [hmul]

/-- Witness for C5: the reference mix at ages 7 and 28. -/
theorem compressive_pre_strict_mono_age_witness :
    compressive_pre 400 160 0 0 40 12 7 < compressive_pre 400 160 0 0 40 12 28 :=
  compressive_pre_strict_mono_age 400 160 0 0 40 12 7 28 (by norm_num) (by norm_num)
    (by norm_num) (by norm_num) (by norm_num) (by norm_num) (by norm_num) (by norm_num)
    (by norm_num)

/-- C10: in the primary (4.1) variant, for every non-degenerate mix and every
age ≤ 0, the age factor is set to 1 and the returned estimate is identical to
the estimate for the same mix at age 28. -/
theorem nonpositive_age_matches_28
    (cement water slag fly_ash silica_fume coarse_agg fine_agg superplast age : ℝ)
    (hw : 0 < water) (hc : 0 < cement) (ha : age ≤ 0) :
    age_factor age = 1 ∧
    predict_concrete_properties_cached cement water slag fly_ash silica_fume
      coarse_agg fine_agg superplast age =
    predict_concrete_properties_cached cement water slag fly_ash silica_fume
      coarse_agg fine_agg superplast 28 := by
  refine ⟨age_factor_nonpos ha, ?_⟩
  have hpre : compressive_pre cement water slag fly_ash silica_fume superplast age =
      compressive_pre cement water slag fly_ash silica_fume superplast 28 := by
    unfold compressive_pre
    rw [age_factor_nonpos ha, age_factor_28]
  unfold predict_concrete_properties_cached
  rw [hpre]

/-- Witness for C10 at the reference mix with age 0. -/
theorem nonpositive_age_matches_28_witness :
    age_factor 0 = 1 ∧
    predict_concrete_properties_cached 400 160 0 0 40 1000 750 12 0 =
    predict_concrete_properties_cached 400 160 0 0 40 1000 750 12 28 :=
  nonpositive_age_matches_28 400 160 0 0 40 1000 750 12 0 (by norm_num) (by norm_num)
    le_rfl

/-- C6: the Eurocode 2 reference-percentage function returns exactly 50 for
every age < 3, and 100 * exp(0.2 * (1 - sqrt(28 / age))) for every age ≥ 3. -/
theorem eurocode_percent_spec (age : ℝ) :
    (age < 3 → eurocode_percent age = 50) ∧
    (3 ≤ age → eurocode_percent age = 100 * Real.exp (0.2 * (1 - Real.sqrt (28 / age)))) := by
  constructor
  · intro h
    unfold eurocode_percent
    rw [if_neg (not_le.mpr h)]
  · intro h
    unfold eurocode_percent
    rw [if_pos h]
    ring

/-- Witness for C6 at ages 2 and 3. -/
theorem eurocode_percent_spec_witness :
    eurocode_percent 2 = 50 ∧
    eurocode_percent 3 = 100 * Real.exp (0.2 * (1 - Real.sqrt (28 / 3))) :=
  ⟨(eurocode_percent_spec 2).1 (by norm_num), (eurocode_percent_spec 3).2 (by norm_num)⟩

lemma our_percentages_length
    (cement water slag fly_ash silica_fume coarse_agg fine_agg superplast : ℝ) :
    (our_percentages cement water slag fly_ash silica_fume coarse_agg fine_agg
      superplast).length = 90 := by
  simp only [our_percentages, our_predictions, ages, List.length_map, List.length_range]

lemma aci_percentages_length : aci_percentages.length = 90 := by
  simp only [aci_percentages, ages, List.length_map, List.length_range]

/-- C7: for a fixed mix and the sampled ages 1..90, the i-th own-model
percentage equals 100 * compressiveStrength(mix, i+1) / compressiveStrength(mix, 28),
and the i-th ACI 209 reference value equals 100 * (i+1) / (4.0 + 0.85 * (i+1)). -/
theorem validation_sequences
    (cement water slag fly_ash silica_fume coarse_agg fine_agg superplast : ℝ)
    (i : ℕ) (h : i < 90) :
    (our_percentages cement water slag fly_ash silica_fume coarse_agg fine_agg
        superplast).get ⟨i, by
          rw [our_percentages_length cement water slag fly_ash silica_fume coarse_agg
            fine_agg superplast]
          exact h⟩ =
      100 * (predict_concrete_properties_cached cement water slag fly_ash silica_fume
          coarse_agg fine_agg superplast ((i : ℝ) + 1)).compressive_strength /
        (predict_concrete_properties_cached cement water slag fly_ash silica_fume
          coarse_agg fine_agg superplast 28).compressive_strength ∧
    aci_percentages.get ⟨i, by rw [aci_percentages_length]; exact h⟩ =
      100 * ((i : ℝ) + 1) / (4.0 + 0.85 * ((i : ℝ) + 1)) := by
  constructor
  · simp only [our_percentages, our_predictions, strength_28, ages, List.get_eq_getElem,
      List.getElem_map, List.getElem_range]
    ring
  · simp only [aci_percentages, ages, List.get_eq_getElem, List.getElem_map,
      List.getElem_range]
    ring

/-- Witness for C7 at the reference mix and index 0 (age 1). -/
theorem validation_sequences_witness :
    (our_percentages 400 160 0 0 40 1000 750 12).get ⟨0, by
        rw [our_percentages_length 400 160 0 0 40 1000 750 12]
        norm_num⟩ =
      100 * (predict_concrete_properties_cached 400 160 0 0 40 1000 750 12
          (((0 : ℕ) : ℝ) + 1)).compressive_strength /
        (predict_concrete_properties_cached 400 160 0 0 40 1000 750 12
          28).compressive_strength ∧
    aci_percentages.get ⟨0, by rw [aci_percentages_length]; norm_num⟩ =
      100 * (((0 : ℕ) : ℝ) + 1) / (4.0 + 0.85 * (((0 : ℕ) : ℝ) + 1)) :=
  validation_sequences 400 160 0 0 40 1000 750 12 0 (by norm_num)

lemma converter_comp_strength
    (cement silica_fume super_plasticizer water_reducer steel_fibers aggregate water age : ℝ) :
    (UHPCToHTMLConverter.predict_concrete_properties cement silica_fume super_plasticizer
      water_reducer steel_fibers aggregate water age).comp_strength =
    round2 (0.45 * cement + 0.8 * silica_fume + 15 * super_plasticizer + 8 * water_reducer +
      0.3 * steel_fibers - 0.2 * water + 5 * Real.log (age + 1) + 25) := rfl

/-- C8 counterexample: at cement=0.01 and all other inputs 0 (age 0, so the
log term vanishes), the exact formula value is 25.0045 but the function
returns its two-decimal rounding 25, so the returned compressive strength
does not equal the formula. -/
theorem converter_round_counterexample :
    (UHPCToHTMLConverter.predict_concrete_properties 0.01 0 0 0 0 0 0 0).comp_strength ≠
    0.45 * 0.01 + 0.8 * 0 + 15 * 0 + 8 * 0 + 0.3 * 0 - 0.2 * 0 + 5 * Real.log (0 + 1) + 25 := by
  rw [converter_comp_strength]
  unfold round2
  rw [show ((0:ℝ) + 1) = 1 by norm_num, Real.log_one]
  rw [show ((0.45 * 0.01 + 0.8 * 0 + 15 * 0 + 8 * 0 + 0.3 * 0 - 0.2 * 0 + 5 * (0:ℝ) + 25) * 100 : ℝ)
      = 2500.45 by norm_num]
  have h2 : round (2500.45 : ℝ) = 2500 := by
    rw [round_eq]
    apply Int.floor_eq_iff.mpr
    constructor
    · norm_num
    · norm_num
  rw [h2]
  norm_num

/-- C8 amended: in the alternate (4.3) variant, for every input, the returned
compressive strength equals the linear-plus-log formula rounded to two
decimal places (round(100 * x) / 100); no clamping is applied. -/
theorem converter_comp_strength_rounded
    (cement silica_fume super_plasticizer water_reducer steel_fibers aggregate water age : ℝ) :
    (UHPCToHTMLConverter.predict_concrete_properties cement silica_fume super_plasticizer
      water_reducer steel_fibers aggregate water age).comp_strength =
    round2 (0.45 * cement + 0.8 * silica_fume + 15 * super_plasticizer + 8 * water_reducer +
      0.3 * steel_fibers - 0.2 * water + 5 * Real.log (age + 1) + 25) :=
  converter_comp_strength cement silica_fume super_plasticizer water_reducer steel_fibers
    aggregate water age

lemma rpow_275_07_bounds :
    (2.0246 : ℝ) < (11 / 4 : ℝ) ^ (0.7 : ℝ) ∧ (11 / 4 : ℝ) ^ (0.7 : ℝ) < 2.0352 := by
  have hpow : ((11 / 4 : ℝ) ^ (0.7 : ℝ)) ^ (10 : ℕ) = (11 / 4 : ℝ) ^ (7 : ℕ) := by
    rw [← Real.rpow_natCast ((11 / 4 : ℝ) ^ (0.7 : ℝ)) 10,
      ← Real.rpow_mul (by norm_num : (0:ℝ) ≤ 11 / 4),
      ← Real.rpow_natCast (11 / 4 : ℝ) 7]
    norm_num
  constructor
  · have h10 : (2.0246 : ℝ) ^ (10 : ℕ) < ((11 / 4 : ℝ) ^ (0.7 : ℝ)) ^ (10 : ℕ) := by
      rw [hpow]
      norm_num
    exact lt_of_pow_lt_pow_left₀ 10 (Real.rpow_nonneg (by norm_num) _) h10
  · have h10 : ((11 / 4 : ℝ) ^ (0.7 : ℝ)) ^ (10 : ℕ) < (2.0352 : ℝ) ^ (10 : ℕ) := by
      rw [hpow]
      norm_num
    exact lt_of_pow_lt_pow_left₀ 10 (by norm_num) h10

lemma reference_pre_eq :
    compressive_pre 400 160 0 0 40 12 28 =
    40 * ((11 / 4 : ℝ) ^ (0.7 : ℝ)) * (57 / 55) * (28 / 25) := by
  have h4 : total_binder 400 0 0 40 = (440 : ℝ) := by
    unfold total_binder
    norm_num
  have h1 : slag_factor 0 (440 : ℝ) = 1 := by
    unfold slag_factor
    rw [if_pos (by norm_num : (0:ℝ) < 440)]
    norm_num
  have h2 : fly_ash_factor 0 (440 : ℝ) = 1 := by
    unfold fly_ash_factor
    rw [if_pos (by norm_num : (0:ℝ) < 440)]
    norm_num
  have h3 : silica_fume_factor 40 (440 : ℝ) = 57 / 55 := by
    unfold silica_fume_factor
    rw [if_pos (by norm_num : (0:ℝ) < 440)]
    norm_num
  unfold compressive_pre
  rw [h4, age_factor_28, h1, h2, h3]
  unfold base_strength
  rw [show (440 : ℝ) / 160 = 11 / 4 by norm_num]
  ring

lemma reference_pre_bounds :
    94 < compressive_pre 400 160 0 0 40 12 28 ∧
    compressive_pre 400 160 0 0 40 12 28 < 94.5 := by
  rw [reference_pre_eq]
  obtain ⟨hl, hu⟩ := rpow_275_07_bounds
  constructor
  · nlinarith [hl]
  · nlinarith [hu]

lemma reference_cs_eq :
    (predict_concrete_properties_cached 400 160 0 0 40 1000 750 12 28).compressive_strength =
    compressive_pre 400 160 0 0 40 12 28 := by
  rw [compressive_strength_eq 400 160 0 0 40 1000 750 12 28 (by norm_num) (by norm_num)]
  obtain ⟨hl, hu⟩ := reference_pre_bounds
  exact clamp_eq_of_mem (by linarith) (by linarith)

/-- C9 counterexample: at the reference input the primary variant returns a
compressive strength of about 94.26 MPa, which is not within 1% of 89.8 MPa
(the spec miscomputes (440/160)^0.7 as about 1.935; it is about 2.030). -/
theorem reference_scenario_not_89_8 :
    ¬ |(predict_concrete_properties_cached 400 160 0 0 40 1000 750 12
        28).compressive_strength - 89.8| ≤ 0.01 * 89.8 := by
  rw [reference_cs_eq]
  obtain ⟨hl, hu⟩ := reference_pre_bounds
  intro habs
  rw [abs_le] at habs
  linarith [habs.2]

/-- C9 amended: for the reference input the primary variant's compressive
strength is within 1% of 94.26 MPa and lies strictly inside [10, 120], so the
clamp does not alter it. -/
theorem reference_scenario_94_26 :
    |(predict_concrete_properties_cached 400 160 0 0 40 1000 750 12
        28).compressive_strength - 94.26| ≤ 0.01 * 94.26 ∧
    10 < (predict_concrete_properties_cached 400 160 0 0 40 1000 750 12
        28).compressive_strength ∧
    (predict_concrete_properties_cached 400 160 0 0 40 1000 750 12
        28).compressive_strength < 120 := by
  rw [reference_cs_eq]
  obtain ⟨hl, hu⟩ := reference_pre_bounds
  exact ⟨abs_le.mpr ⟨by linarith, by linarith⟩, by linarith, by linarith⟩

end UHPC
